/-
Verification of the ai_overview repository core pipeline.

The repository has two variants of the same pipeline:
  * src/ai_overview/ai_overview.py  (the "overview" variant)
  * src/ai_search/ai_search.py      (the "search" variant)

Shallow embedding conventions:
  * A Python dict (search-result record) is an association list
    Rec := List (String × String) in insertion order; dict keys are unique
    in Python, so theorems that need that carry a Nodup hypothesis or avoid it.
  * dict.get(k, d) is getD; Python tuple(sorted(r.items())) is canon
    (sorting pairs lexicographically by unicode code point, which is what
    Python sorted does on pairs of strings); the Python set funnel of
    remove_duplicates_and_unused_keys is modelled by List.dedup of the
    canonical forms (set iteration order is unspecified in the spec, so a
    representative order is chosen).
  * Python substring containment (k in s for strings) is pyInStr;
    str.strip() is pyStrip (ASCII whitespace).
  * Each language-model / search-provider collaborator call is an oracle
    field of Collab; a call that raises an exception is Except.error ().
  * json.loads output is a JValue; Except.ok none from the expansion
    oracle models a json.JSONDecodeError, Except.error () models the ask
    call itself raising.
  * The orchestrators return an outcome together with a trace of the
    collaborator calls issued, in order.  The searched_on wall-clock
    timestamp and all logging are not modelled.
-/
import Mathlib

/-- A search-result record: a Python dict as an association list of
string keys and string values, in insertion order. -/
abbrev Rec := List (String × String)

/-- Python r.get(k, d): the value at key k, or the default d. -/
def getD (r : Rec) (k d : String) : String :=
  match r.find? (fun kv => kv.1 = k) with
  | some kv => kv.2
  | none => d

/-- Substring test on char lists: needle occurs contiguously in hay. -/
def listIsInfixOf (n : List Char) : List Char → Bool
  | [] => n.isEmpty
  | c :: rest => n.isPrefixOf (c :: rest) || listIsInfixOf n rest

/-- Python needle in hay on strings: substring containment. -/
def pyInStr (needle hay : String) : Bool :=
  listIsInfixOf needle.toList hay.toList

/-- Python s.strip(): drop leading and trailing whitespace. -/
def pyStrip (s : String) : String :=
  ⟨((s.toList.dropWhile Char.isWhitespace).reverse.dropWhile Char.isWhitespace).reverse⟩

/- Lexicographic order on strings by unicode code point — the order Python
uses to compare strings, hence the one sorted(r.items()) sorts by.
Defined from scratch so that it reduces in the kernel. -/

/-- Code-point comparison of characters. -/
def charLt (a b : Char) : Prop := a.val.toNat < b.val.toNat

instance : DecidableRel charLt := fun a b =>
  inferInstanceAs (Decidable (a.val.toNat < b.val.toNat))

/-- Strict lexicographic order on char lists. -/
def listCharLt : List Char → List Char → Prop
  | [], [] => False
  | [], _ :: _ => True
  | _ :: _, [] => False
  | a :: as, b :: bs => charLt a b ∨ (a = b ∧ listCharLt as bs)

def listCharLtDec : (a b : List Char) → Decidable (listCharLt a b)
  | [], [] => isFalse id
  | [], _ :: _ => isTrue trivial
  | _ :: _, [] => isFalse id
  | a :: as, b :: bs =>
      haveI : Decidable (listCharLt as bs) := listCharLtDec as bs
      inferInstanceAs (Decidable (charLt a b ∨ (a = b ∧ listCharLt as bs)))

instance : DecidableRel listCharLt := listCharLtDec

/-- Python string comparison: strict lexicographic order by code point. -/
def strLt (a b : String) : Prop := listCharLt a.toList b.toList

instance : DecidableRel strLt := fun a b =>
  inferInstanceAs (Decidable (listCharLt a.toList b.toList))

theorem listCharLt_trichotomy : ∀ a b : List Char, listCharLt a b ∨ a = b ∨ listCharLt b a
  | [], [] => Or.inr (Or.inl rfl)
  | [], _ :: _ => Or.inl trivial
  | _ :: _, [] => Or.inr (Or.inr trivial)
  | a :: as, b :: bs => by
      rcases Nat.lt_trichotomy a.val.toNat b.val.toNat with h | h | h
      · exact Or.inl (Or.inl h)
      · rcases listCharLt_trichotomy as bs with h2 | h2 | h2
        · exact Or.inl (Or.inr ⟨Char.ext (UInt32.ext h), h2⟩)
        · exact Or.inr (Or.inl (by rw [Char.ext (UInt32.ext h), h2]))
        · exact Or.inr (Or.inr (Or.inr ⟨(Char.ext (UInt32.ext h)).symm, h2⟩))
      · exact Or.inr (Or.inr (Or.inl h))

theorem listCharLt_trans : ∀ {a b c : List Char},
    listCharLt a b → listCharLt b c → listCharLt a c
  | [], [], _, hab, _ => absurd hab id
  | [], _ :: _, [], _, hbc => absurd hbc id
  | [], _ :: _, _ :: _, _, _ => trivial
  | _ :: _, [], _, hab, _ => absurd hab id
  | _ :: _, _ :: _, [], _, hbc => absurd hbc id
  | a :: as, b :: bs, c :: cs, hab, hbc => by
      rcases hab with h1 | ⟨e1, r1⟩
      · rcases hbc with h2 | ⟨e2, _⟩
        · exact Or.inl (Nat.lt_trans h1 h2)
        · exact Or.inl (e2 ▸ h1)
      · rcases hbc with h2 | ⟨e2, r2⟩
        · exact Or.inl (e1 ▸ h2)
        · exact Or.inr ⟨e1.trans e2, listCharLt_trans r1 r2⟩

/-- Lexicographic order on (key, value) pairs: Python sorted(r.items())
compares the tuples componentwise. -/
def pairLe (a b : String × String) : Prop :=
  strLt a.1 b.1 ∨ (a.1 = b.1 ∧ (strLt a.2 b.2 ∨ a.2 = b.2))

instance : DecidableRel pairLe := fun a b => by
  unfold pairLe; infer_instance

theorem string_ext_of_toList (a b : String) (h : a.toList = b.toList) : a = b :=
  String.ext h

instance : IsTotal (String × String) pairLe := by
  constructor
  intro a b
  rcases listCharLt_trichotomy a.1.toList b.1.toList with h | h | h
  · exact Or.inl (Or.inl h)
  · have e : a.1 = b.1 := string_ext_of_toList _ _ h
    rcases listCharLt_trichotomy a.2.toList b.2.toList with h2 | h2 | h2
    · exact Or.inl (Or.inr ⟨e, Or.inl h2⟩)
    · exact Or.inl (Or.inr ⟨e, Or.inr (string_ext_of_toList _ _ h2)⟩)
    · exact Or.inr (Or.inr ⟨e.symm, Or.inl h2⟩)
  · exact Or.inr (Or.inl h)

instance : IsTrans (String × String) pairLe := by
  constructor
  intro a b c hab hbc
  rcases hab with h1 | ⟨e1, l1⟩
  · rcases hbc with h2 | ⟨e2, _⟩
    · exact Or.inl (listCharLt_trans h1 h2)
    · exact Or.inl (e2 ▸ h1)
  · rcases hbc with h2 | ⟨e2, l2⟩
    · exact Or.inl (e1 ▸ h2)
    · refine Or.inr ⟨e1.trans e2, ?_⟩
      rcases l1 with h3 | h3
      · rcases l2 with h4 | h4
        · exact Or.inl (listCharLt_trans h3 h4)
        · exact Or.inl (h4 ▸ h3)
      · rcases l2 with h4 | h4
        · exact Or.inl (h3 ▸ h4)
        · exact Or.inr (h3.trans h4)

/-- Python tuple(sorted(r.items())) (and dict(t) of that tuple):
the record with its pairs sorted lexicographically. -/
def canon (r : Rec) : Rec :=
  List.insertionSort pairLe r

/-- Overview variant, remove_duplicates_and_unused_keys, stripping step:
the dict comprehension keeping k only when k != "body" — drops exactly
the key "body". -/
def removeBody (r : Rec) : Rec :=
  r.filter (fun kv => kv.1 ≠ "body")

/-- Search variant, _remove_duplicates_and_unused_keys, stripping step:
the dict comprehension keeping k only when k not in ("body").  The
parenthesised ("body") is the string "body", not a tuple, so this drops
every key that is a SUBSTRING of "body". -/
def removeBodySearch (r : Rec) : Rec :=
  r.filter (fun kv => ¬ pyInStr kv.1 "body")

/-- The canonical form a record is deduplicated under (overview variant):
strip the body key, then sort the remaining pairs. -/
def dedupKey (r : Rec) : Rec :=
  canon (removeBody r)

/-- Overview variant remove_duplicates_and_unused_keys: strip "body" from
every record, funnel the records through a set of sorted item tuples, and
return them as records again (each output record is its sorted form). -/
def remove_duplicates_and_unused_keys (search_results : List Rec) : List Rec :=
  (search_results.map dedupKey).dedup

example : remove_duplicates_and_unused_keys
    [[("title", "A"), ("href", "x")], [("title", "B"), ("href", "x")]] =
    [[("href", "x"), ("title", "A")], [("href", "x"), ("title", "B")]] := by decide

example : remove_duplicates_and_unused_keys
    [[("title", "A"), ("href", "x"), ("body", "long")],
     [("body", "other"), ("href", "x"), ("title", "A")]] =
    [[("href", "x"), ("title", "A")]] := by decide

/-- A JSON value, as returned by json.loads. -/
inductive JValue where
  | jnull
  | jbool (b : Bool)
  | jnum (n : Int)
  | jstr (s : String)
  | jarr (xs : List JValue)
  | jobj (fields : List (String × JValue))

/-- The string carried by a JSON string value, if it is one
(Python isinstance(q, str)). -/
def JValue.asString : JValue → Option String
  | .jstr s => some s
  | _ => none

/-- The shape check of expand_query: isinstance(queries, list) and
all elements are strings; the decoded list of strings if so. -/
def decodeStringList : JValue → Option (List String)
  | .jarr xs => xs.mapM JValue.asString
  | _ => none

/-- The external collaborators, one oracle per call site.  An oracle
returning Except.error () models the call raising an exception. -/
structure Collab where
  /-- tools.ask on the query-sanitization prompt. -/
  sanitize : String → Except Unit String
  /-- tools.ask on the expansion prompt composed with json.loads:
  error = ask raised; ok none = json.JSONDecodeError; ok (some v) = parsed. -/
  expandResp : String → Except Unit (Option JValue)
  /-- webkit.search.google for one query. -/
  search : String → Except Unit (List Rec)
  /-- tools.ask on the overview prompt built from the evidence text and
  the query list. -/
  overviewResp : String → List String → Except Unit String
  /-- tools.named_entity_recognition on the overview text. -/
  nerResp : String → Except Unit (List Rec)
  /-- tools.ask on the relevance prompt built from the queries and the
  snippet-only records. -/
  relevanceResp : List String → List Rec → Except Unit String

/-- How expand_query can fail: the ask call raised, or the response was
malformed (invalid JSON, not a list, or a non-string element); both are
re-raised by the Python code after logging. -/
inductive ExpandErr where
  | askFailed
  | malformed
deriving DecidableEq

/-- expand_query (both variants, textually identical): ask the model,
json.loads the response, check it is a list of strings, else raise. -/
def expand_query (c : Collab) (query : String) : Except ExpandErr (List String) :=
  match c.expandResp query with
  | .error _ => .error .askFailed
  | .ok none => .error .malformed
  | .ok (some v) =>
      match decodeStringList v with
      | some qs => .ok qs
      | none => .error .malformed

/-- perform_searches (both variants): one provider call per query; a
failing call is logged and skipped; results are concatenated in order. -/
def perform_searches (c : Collab) (queries : List String) : List Rec :=
  (queries.map (fun q =>
    match c.search q with
    | .ok rs => rs
    | .error _ => [])).flatten

/-- search_results_relevance: a single tools.ask on the relevance prompt,
returning the raw response string (never parsed by the caller). -/
def search_results_relevance (c : Collab) (queries : List String)
    (search_results : List Rec) : Except Unit String :=
  c.relevanceResp queries search_results

/-- The dict comprehension in _remove_irrelevant_results keeping k only
when k in ("snippet"): again a string, so it keeps every key that is a
substring of "snippet". -/
def snippetOnly (r : Rec) : Rec :=
  r.filter (fun kv => pyInStr kv.1 "snippet")

/-- The function _remove_irrelevant_results (both variants, textually identical):
issues the relevance call, then returns the accumulator list
relevant_search_results, whose filling loop is commented out — so it is
the empty list whenever the relevance call does not raise. -/
def remove_irrelevant_results (c : Collab) (queries : List String)
    (search_results : List Rec) : Except Unit (List Rec) :=
  match search_results_relevance c queries (search_results.map snippetOnly) with
  | .error e => .error e
  | .ok _ => .ok []

/-- One evidence line of the overview variant's extract_text_and_links:
title and snippet are read with default "", stripped, and joined with
a colon and a space. -/
def extractLine (r : Rec) : String :=
  pyStrip (getD r "title" "") ++ ": " ++ pyStrip (getD r "snippet" "")

/-- extract_text_and_links (overview variant): a single loop appending
one text line and one href per record, then the lines are joined with
newlines and the links funnelled through a set. -/
def extract_text_and_links (search_results : List Rec) : String × List String :=
  let acc := search_results.foldl
    (fun (acc : List String × List String) r =>
      (acc.1 ++ [extractLine r], acc.2 ++ [pyStrip (getD r "href" "")]))
    ([], [])
  (String.intercalate "\n" acc.1, acc.2.dedup)

/-- generate_overview (overview variant): ask the model; on an exception,
log it and fall off the end of the function, returning None. -/
def generate_overview (c : Collab) (text : String) (queries : List String) :
    Option String :=
  match c.overviewResp text queries with
  | .ok s => some s
  | .error _ => none

/-- recognise_named_entities (overview variant): call the NER model on the
text; on an exception, log it and fall off the end, returning None (not
the empty list).  The caller must supply an actual string: with a None
argument the len(text) debug log raises before this body is reached,
which the orchestrator models separately. -/
def recognise_named_entities (c : Collab) (text : String) : Option (List Rec) :=
  match c.nerResp text with
  | .ok es => some es
  | .error _ => none

/-- One collaborator call issued by a pipeline run, in order. -/
inductive Ev where
  | sanitizeCall
  | expandCall
  | searchCall (q : String)
  | overviewCall
  | nerCall
deriving DecidableEq

/-- An uncaught Python exception class, coarsely. -/
inductive PyErr where
  /-- the sanitize/expand ask call raised and was re-raised -/
  | collab
  /-- json.JSONDecodeError or the ValueError shape check of expand_query -/
  | malformed
  /-- TypeError from len(None) when the overview is None -/
  | typeErr
deriving DecidableEq

/-- The data dict assembled by the overview variant's ai_search
(searched_on, a wall-clock timestamp, is not modelled). -/
structure SessionData where
  overview : Option String
  links : List String
  named_entities : Option (List Rec)
deriving DecidableEq

/-- How a run of the overview variant's ai_search ends. -/
inductive Outcome where
  /-- returned None: empty query -/
  | noResult
  /-- an uncaught exception propagated out -/
  | raised (e : PyErr)
  /-- returned the assembled data dict -/
  | done (d : SessionData)
deriving DecidableEq

/-- ai_search of src/ai_overview/ai_overview.py: the full pipeline,
returning its outcome and the trace of collaborator calls issued. -/
def ai_search_overview (c : Collab) (original_query : String) :
    Outcome × List Ev :=
  if original_query = "" then (.noResult, [])
  else
    match c.sanitize original_query with
    | .error _ => (.raised .collab, [.sanitizeCall])
    | .ok sanitized_query =>
      match expand_query c sanitized_query with
      | .error .askFailed => (.raised .collab, [.sanitizeCall, .expandCall])
      | .error .malformed => (.raised .malformed, [.sanitizeCall, .expandCall])
      | .ok additional_queries =>
        let queries := sanitized_query :: additional_queries
        let search_results := perform_searches c queries
        let unique_search_results := remove_duplicates_and_unused_keys search_results
        let txl := extract_text_and_links unique_search_results
        let trace := Ev.sanitizeCall :: Ev.expandCall ::
          (queries.map Ev.searchCall) ++ [Ev.overviewCall]
        match generate_overview c txl.1 queries with
        | none =>
            -- recognise_named_entities(None): len(None) raises TypeError
            -- before the NER model call is issued
            (.raised .typeErr, trace)
        | some ov =>
            (.done ⟨some ov, txl.2, recognise_named_entities c ov⟩,
             trace ++ [.nerCall])

/-- How a run of the search variant's ai_search ends. -/
inductive OutcomeS where
  | noResult
  | raised (e : PyErr)
  /-- sys.exit() raised SystemExit -/
  | exited
deriving DecidableEq

/-- ai_search of src/ai_search/ai_search.py: identical up to retrieval,
then an unconditional sys.exit() before consolidation; everything after
it is dead code. -/
def ai_search_search (c : Collab) (original_query : String) :
    OutcomeS × List Ev :=
  if original_query = "" then (.noResult, [])
  else
    match c.sanitize original_query with
    | .error _ => (.raised .collab, [.sanitizeCall])
    | .ok sanitized_query =>
      match expand_query c sanitized_query with
      | .error .askFailed => (.raised .collab, [.sanitizeCall, .expandCall])
      | .error .malformed => (.raised .malformed, [.sanitizeCall, .expandCall])
      | .ok additional_queries =>
        let queries := sanitized_query :: additional_queries
        let _ := perform_searches c queries
        (.exited, Ev.sanitizeCall :: Ev.expandCall :: queries.map Ev.searchCall)

/-- A concrete collaborator bundle for sanity checks: sanitization is the
identity, expansion yields no additional queries, every search fails,
synthesis returns a fixed string, NER succeeds with no entities. -/
def allSearchesFailCollab : Collab where
  sanitize := fun q => .ok q
  expandResp := fun _ => .ok (some (.jarr []))
  search := fun _ => .error ()
  overviewResp := fun _ _ => .ok "an overview"
  nerResp := fun _ => .ok []
  relevanceResp := fun _ _ => .ok "[0.0]"

example : (ai_search_overview allSearchesFailCollab "q").1 =
    .done ⟨some "an overview", [], some []⟩ := by decide

example : (ai_search_overview allSearchesFailCollab "q").2 =
    [.sanitizeCall, .expandCall, .searchCall "q", .overviewCall, .nerCall] := by decide

example : ai_search_search allSearchesFailCollab "q" =
    (.exited, [.sanitizeCall, .expandCall, .searchCall "q"]) := by decide

/-- A concrete collaborator bundle whose expansion response is the raw
string "not a list", which json.loads rejects: the composed expansion
oracle yields ok none (a json.JSONDecodeError). -/
def malformedExpandCollab : Collab where
  sanitize := fun q => .ok q
  expandResp := fun _ => .ok none
  search := fun _ => .ok [[("title", "t")]]
  overviewResp := fun _ _ => .ok "ov"
  nerResp := fun _ => .ok []
  relevanceResp := fun _ _ => .ok ""

/- ===================== Claim theorems ===================== -/

/-- C4: for the empty input query, both variants of ai_search return no
result (None), run no pipeline stage, and issue no SearchProvider or
Prompting collaborator call (the call trace is empty). -/
theorem ai_search_empty_query_no_result_no_calls (c : Collab) :
    ai_search_overview c "" = (.noResult, []) ∧
    ai_search_search c "" = (.noResult, []) :=
  ⟨rfl, rfl⟩

/-- C10: in the search variant, once sanitization and expansion succeed on
a non-empty query, ai_search unconditionally terminates via sys.exit()
right after retrieval: the outcome is SystemExit, the trace stops at the
search calls, and no synthesis or annotation call is ever issued, so a
result record is never returned. -/
theorem ai_search_variant_exits_after_retrieval (c : Collab) (q sq : String)
    (addq : List String) (hq : q ≠ "")
    (hs : c.sanitize q = .ok sq)
    (he : expand_query c sq = .ok addq) :
    (ai_search_search c q).1 = .exited ∧
    (ai_search_search c q).2 =
      Ev.sanitizeCall :: Ev.expandCall :: (sq :: addq).map Ev.searchCall ∧
    Ev.overviewCall ∉ (ai_search_search c q).2 ∧
    Ev.nerCall ∉ (ai_search_search c q).2 := by
  simp [ai_search_search, if_neg hq, hs, he, List.mem_map]

/-- C10 witness: with the concrete collaborators where every search fails,
the search variant on query "q" exits after retrieval. -/
theorem ai_search_variant_exits_after_retrieval_witness :
    (ai_search_search allSearchesFailCollab "q").1 = .exited ∧
    (ai_search_search allSearchesFailCollab "q").2 =
      Ev.sanitizeCall :: Ev.expandCall :: ("q" :: []).map Ev.searchCall ∧
    Ev.overviewCall ∉ (ai_search_search allSearchesFailCollab "q").2 ∧
    Ev.nerCall ∉ (ai_search_search allSearchesFailCollab "q").2 :=
  ai_search_variant_exits_after_retrieval allSearchesFailCollab "q" "q" []
    (by decide) rfl rfl

/-- C3: if the model's expansion response is malformed (invalid JSON such
as the raw string "not a list", or valid JSON that is not a list of
strings), then on any non-empty query whose sanitization succeeded both
variants of ai_search abort with the malformed-output error, produce no
result record, and issue no search-provider call. -/
theorem expand_malformed_aborts_no_retrieval (c : Collab) (q sq : String)
    (hq : q ≠ "") (hs : c.sanitize q = .ok sq)
    (hm : expand_query c sq = .error .malformed) :
    (ai_search_overview c q).1 = .raised .malformed ∧
    (ai_search_overview c q).2 = [.sanitizeCall, .expandCall] ∧
    (∀ s, Ev.searchCall s ∉ (ai_search_overview c q).2) ∧
    (ai_search_search c q).1 = .raised .malformed ∧
    (∀ s, Ev.searchCall s ∉ (ai_search_search c q).2) := by
  simp [ai_search_overview, ai_search_search, if_neg hq, hs, hm]

/-- C3 witness: with the concrete collaborators whose expansion response
fails to parse as JSON, ai_search on query "q" aborts with the
malformed-output error and never calls the search provider. -/
theorem expand_malformed_aborts_no_retrieval_witness :
    (ai_search_overview malformedExpandCollab "q").1 = .raised .malformed ∧
    (ai_search_overview malformedExpandCollab "q").2 = [.sanitizeCall, .expandCall] ∧
    (∀ s, Ev.searchCall s ∉ (ai_search_overview malformedExpandCollab "q").2) ∧
    (ai_search_search malformedExpandCollab "q").1 = .raised .malformed ∧
    (∀ s, Ev.searchCall s ∉ (ai_search_search malformedExpandCollab "q").2) :=
  expand_malformed_aborts_no_retrieval malformedExpandCollab "q" "q"
    (by decide) rfl rfl

/-- Sorting a record's pairs permutes them. -/
theorem canon_perm (r : Rec) : (canon r).Perm r :=
  List.perm_insertionSort pairLe r

/-- Sorting is idempotent: a sorted record sorts to itself. -/
theorem canon_canon (r : Rec) : canon (canon r) = canon r :=
  List.Sorted.insertionSort_eq (List.sorted_insertionSort pairLe r)

/-- A deduplication key has no body key left, so stripping it again is a
no-op. -/
theorem removeBody_dedupKey (r : Rec) : removeBody (dedupKey r) = dedupKey r := by
  apply List.filter_eq_self.2
  intro kv hkv
  have hkv' : kv ∈ removeBody r := (canon_perm (removeBody r)).mem_iff.1 hkv
  exact (List.mem_filter.1 hkv').2

/-- The deduplication key map is idempotent on records. -/
theorem dedupKey_idem (r : Rec) : dedupKey (dedupKey r) = dedupKey r := by
  show canon (removeBody (dedupKey r)) = dedupKey r
  rw [removeBody_dedupKey r]
  exact canon_canon (removeBody r)

/-- C8: the overview variant's remove_duplicates_and_unused_keys is
idempotent — applying it twice yields exactly the same record list (hence
the same set) as applying it once. -/
theorem remove_duplicates_idempotent (rs : List Rec) :
    remove_duplicates_and_unused_keys (remove_duplicates_and_unused_keys rs) =
      remove_duplicates_and_unused_keys rs := by
  show (((rs.map dedupKey).dedup).map dedupKey).dedup = (rs.map dedupKey).dedup
  have h1 : ∀ x ∈ (rs.map dedupKey).dedup, dedupKey x = id x := by
    intro x hx
    obtain ⟨r, _, rfl⟩ := List.mem_map.1 (List.mem_dedup.1 hx)
    exact dedupKey_idem r
  rw [List.map_congr_left h1, List.map_id]
  exact (List.nodup_dedup _).dedup

/-- C2: two records of the input that have the same href value but whose
body-stripped key-value pair sets differ (for example a different title)
are both present in the output of remove_duplicates_and_unused_keys, as
distinct records: deduplication collapses two records only when their
full stripped pair sets coincide, never on link equality alone. -/
theorem dedup_same_href_distinct_title_both_kept (rs : List Rec) (r₁ r₂ : Rec)
    (h₁ : r₁ ∈ rs) (h₂ : r₂ ∈ rs)
    (hhref : getD r₁ "href" "" = getD r₂ "href" "")
    (hne : ¬ ∀ kv : String × String, kv ∈ removeBody r₁ ↔ kv ∈ removeBody r₂) :
    dedupKey r₁ ∈ remove_duplicates_and_unused_keys rs ∧
    dedupKey r₂ ∈ remove_duplicates_and_unused_keys rs ∧
    dedupKey r₁ ≠ dedupKey r₂ ∧
    (remove_duplicates_and_unused_keys rs).Nodup := by
  refine ⟨List.mem_dedup.2 (List.mem_map_of_mem dedupKey h₁),
          List.mem_dedup.2 (List.mem_map_of_mem dedupKey h₂),
          ?_, List.nodup_dedup _⟩
  intro h
  apply hne
  intro kv
  constructor
  · intro hk
    have hk1 : kv ∈ dedupKey r₁ := (canon_perm (removeBody r₁)).mem_iff.2 hk
    rw [h] at hk1
    exact (canon_perm (removeBody r₂)).mem_iff.1 hk1
  · intro hk
    have hk2 : kv ∈ dedupKey r₂ := (canon_perm (removeBody r₂)).mem_iff.2 hk
    rw [← h] at hk2
    exact (canon_perm (removeBody r₁)).mem_iff.1 hk2

/-- C2 witness: the spec's example — records titled "A" and "B" sharing
href "x" are both in the deduplicated output, as distinct records. -/
theorem dedup_same_href_distinct_title_both_kept_witness :
    dedupKey [("title", "A"), ("href", "x")] ∈
      remove_duplicates_and_unused_keys
        [[("title", "A"), ("href", "x")], [("title", "B"), ("href", "x")]] ∧
    dedupKey [("title", "B"), ("href", "x")] ∈
      remove_duplicates_and_unused_keys
        [[("title", "A"), ("href", "x")], [("title", "B"), ("href", "x")]] ∧
    dedupKey [("title", "A"), ("href", "x")] ≠ dedupKey [("title", "B"), ("href", "x")] ∧
    (remove_duplicates_and_unused_keys
        [[("title", "A"), ("href", "x")], [("title", "B"), ("href", "x")]]).Nodup :=
  dedup_same_href_distinct_title_both_kept
    [[("title", "A"), ("href", "x")], [("title", "B"), ("href", "x")]]
    [("title", "A"), ("href", "x")] [("title", "B"), ("href", "x")]
    (by decide) (by decide) (by decide)
    (fun h => absurd ((h ("title", "A")).1 (by decide)) (by decide))

/-- C6: the two variants diverge on the stripping step.  The overview
variant removes exactly the key "body" and keeps every other key with its
value (here "bod" and "title" survive); the search variant's
k not in ("body") is a substring test on the string "body", so it also
removes the key "bod" — the claim fails on the search variant. -/
theorem strip_body_substring_divergence :
    removeBody [("bod", "v"), ("body", "b"), ("title", "t")] =
      [("bod", "v"), ("title", "t")] ∧
    removeBodySearch [("bod", "v"), ("body", "b"), ("title", "t")] =
      [("title", "t")] := by decide

/-- The amended specification of the evidence text: one line per record in
input order, each line the whitespace-stripped title, a colon and a space,
then the whitespace-stripped snippet, all joined with newlines. -/
def extractTextAmendedSpec (rs : List Rec) : String :=
  String.intercalate "\n"
    (rs.map (fun r => pyStrip (getD r "title" "") ++ ": " ++ pyStrip (getD r "snippet" "")))

/-- The accumulating loop of extract_text_and_links equals a map: one text
line and one stripped href per record, in input order. -/
theorem extract_fold (rs : List Rec) (t l : List String) :
    rs.foldl
      (fun (acc : List String × List String) r =>
        (acc.1 ++ [extractLine r], acc.2 ++ [pyStrip (getD r "href" "")]))
      (t, l) =
    (t ++ rs.map extractLine, l ++ rs.map (fun r => pyStrip (getD r "href" ""))) := by
  induction rs generalizing t l with
  | nil => simp
  | cons r rs ih => simp [ih]

/-- C7 (amended): extract_text_and_links is total — a missing title,
snippet or href defaults to the empty string — and the returned text is
the newline-join of one line per record in input order, where each line
is the whitespace-STRIPPED title, ": ", and the whitespace-STRIPPED
snippet; the links are the stripped hrefs with duplicates removed. -/
theorem extract_text_and_links_spec (rs : List Rec) :
    (extract_text_and_links rs).1 = extractTextAmendedSpec rs ∧
    (extract_text_and_links rs).2 =
      (rs.map (fun r => pyStrip (getD r "href" ""))).dedup := by
  have h := extract_fold rs [] []
  simp only [extract_text_and_links, h, List.nil_append]
  exact ⟨rfl, trivial⟩

/-- C7 counterexample: with a title carrying surrounding whitespace, the
produced line is the STRIPPED title joined to the snippet, not the raw
"title: snippet" join the claim states. -/
theorem extract_text_strips_whitespace_cex :
    (extract_text_and_links [[("title", " A "), ("snippet", "s"), ("href", "x")]]).1 =
      "A: s" ∧
    "A: s" ≠ " A : s" := by
  constructor
  · rfl
  · decide

/-- C5 counterexample: on a non-empty result list (with a successful
relevance call), _remove_irrelevant_results returns the empty list, not
its input — it is not a passthrough. -/
theorem remove_irrelevant_not_passthrough_cex :
    remove_irrelevant_results allSearchesFailCollab ["q"] [[("title", "t")]] = .ok [] ∧
    remove_irrelevant_results allSearchesFailCollab ["q"] [[("title", "t")]] ≠
      .ok [[("title", "t")]] := by
  refine ⟨rfl, ?_⟩
  intro h
  rw [show remove_irrelevant_results allSearchesFailCollab ["q"] [[("title", "t")]] =
      .ok [] from rfl] at h
  simp at h

/-- C5 (amended): whenever the relevance-scoring call succeeds,
_remove_irrelevant_results returns the EMPTY list regardless of its input
(its filling loop is commented out); the pipeline's passthrough behavior
lives at the call site, which never invokes this stage.  In particular it
is not the identity on any non-empty input. -/
theorem remove_irrelevant_returns_empty (c : Collab) (queries : List String)
    (rs : List Rec) (s : String)
    (hok : c.relevanceResp queries (rs.map snippetOnly) = .ok s) :
    remove_irrelevant_results c queries rs = .ok [] ∧
    (rs ≠ [] → remove_irrelevant_results c queries rs ≠ .ok rs) := by
  have h1 : remove_irrelevant_results c queries rs = .ok [] := by
    simp [remove_irrelevant_results, search_results_relevance, hok]
  refine ⟨h1, fun hne h => ?_⟩
  rw [h1] at h
  injection h with h'
  exact hne h'.symm

/-- C5 witness: with the concrete collaborators, a concrete query list and
one concrete record, the stage returns the empty list and is not the
identity. -/
theorem remove_irrelevant_returns_empty_witness :
    remove_irrelevant_results allSearchesFailCollab ["q"] [[("snippet", "s")]] = .ok [] ∧
    (([[("snippet", "s")]] : List Rec) ≠ [] →
      remove_irrelevant_results allSearchesFailCollab ["q"] [[("snippet", "s")]] ≠
        .ok [[("snippet", "s")]]) :=
  remove_irrelevant_returns_empty allSearchesFailCollab ["q"] [[("snippet", "s")]]
    "[0.0]" rfl

/-- A concrete collaborator bundle where everything succeeds except the
named-entity-recognition model call, which raises. -/
def nerFailsCollab : Collab where
  sanitize := fun q => .ok q
  expandResp := fun _ => .ok (some (.jarr []))
  search := fun _ => .ok [[("title", "t"), ("snippet", "s"), ("href", "x")]]
  overviewResp := fun _ _ => .ok "ov"
  nerResp := fun _ => .error ()
  relevanceResp := fun _ _ => .ok ""

/-- C9: when the NER model call fails, recognise_named_entities swallows
the exception (the session still completes with overview and links
intact), but it falls off the end of the function and returns None — not
the empty list its docstring and the spec promise.  The named_entities
field of the completed session is None, which differs from some []. -/
theorem recognise_entities_failure_returns_none :
    recognise_named_entities nerFailsCollab "ov" = none ∧
    (none : Option (List Rec)) ≠ some [] ∧
    (ai_search_overview nerFailsCollab "q").1 =
      .done ⟨some "ov", ["x"], none⟩ := by
  refine ⟨rfl, by decide, by decide⟩

/-- When every provider call fails, retrieval yields no records. -/
theorem perform_searches_all_fail (c : Collab) (qs : List String)
    (h : ∀ x ∈ qs, c.search x = .error ()) : perform_searches c qs = [] := by
  induction qs with
  | nil => rfl
  | cons q qs ih =>
      have h1 := h q (List.mem_cons_self q qs)
      have h2 : ∀ x ∈ qs, c.search x = .error () :=
        fun x hx => h x (List.mem_cons_of_mem q hx)
      have ih' := ih h2
      simp only [perform_searches, List.map_cons, List.flatten_cons, h1] at ih' ⊢
      simp [ih']

/-- C1 (amended): if the search provider fails for every query in the
working query set, the overview variant's ai_search still returns a
completed session record (no exception) whose links list is empty; its
overview, however, is whatever the synthesizer returns for the EMPTY
evidence text — not necessarily an empty string.  (The search variant
never returns a record at all: it exits after retrieval.) -/
theorem ai_search_overview_all_searches_fail (c : Collab) (q sq ov : String)
    (addq : List String)
    (hq : q ≠ "") (hs : c.sanitize q = .ok sq)
    (he : expand_query c sq = .ok addq)
    (hfail : ∀ x ∈ sq :: addq, c.search x = .error ())
    (hov : c.overviewResp "" (sq :: addq) = .ok ov) :
    (ai_search_overview c q).1 =
      .done ⟨some ov, [], recognise_named_entities c ov⟩ := by
  have hps := perform_searches_all_fail c (sq :: addq) hfail
  have hint : ("\n".intercalate ([] : List String)) = "" := rfl
  simp [ai_search_overview, if_neg hq, hs, he, hps, generate_overview, hint, hov,
        remove_duplicates_and_unused_keys, extract_text_and_links]

/-- C1 witness: with the concrete collaborators where every search fails,
a run on query "q" completes with empty links and the synthesizer's
output as overview. -/
theorem ai_search_overview_all_searches_fail_witness :
    (ai_search_overview allSearchesFailCollab "q").1 =
      .done ⟨some "an overview", [],
        recognise_named_entities allSearchesFailCollab "an overview"⟩ :=
  ai_search_overview_all_searches_fail allSearchesFailCollab "q" "q" "an overview" []
    (by decide) rfl rfl (fun x _ => rfl) rfl

/-- C1 counterexample: concrete collaborators where every search-provider
call fails, yet the overview variant returns a record whose overview is
the non-empty string "an overview" (not the empty marker the claim
states), and the search variant exits without returning a record. -/
theorem ai_search_returns_nonempty_overview_cex :
    (∀ x, allSearchesFailCollab.search x = .error ()) ∧
    (ai_search_overview allSearchesFailCollab "q").1 =
      .done ⟨some "an overview", [], some []⟩ ∧
    some "an overview" ≠ some "" ∧
    (ai_search_search allSearchesFailCollab "q").1 = .exited :=
  ⟨fun _ => rfl, by decide, by decide, by decide⟩
